import Mathlib

/-!
Shallow embedding of `src/app.py` (Flask frontend for a user-management
backend) and proofs about its route handlers.

Modelling conventions:
* A `requests` response is a status code together with the result of
  `.json()`; `body = none` models a body that is not valid JSON, where
  `.json()` raises.
* Python truthiness of a `requests.Response` is `Response.ok`, i.e.
  `status_code < 400`; this matters because the handlers test
  `if response:` and `if response and response.status_code == N:`.
* The behaviour of the underlying network call is an explicit input
  (`NetOutcome`): a response arrived, a `requests.exceptions.RequestException`
  was raised (connection refused, timeout, DNS failure, malformed response),
  or some other exception was raised.
* Exceptions propagating out of a handler are `Except.error`; Flask turns
  them into a 500 page.
* Flash messages are queued in the order the handler calls `flash`.
-/

namespace PyFrontend

/-- JSON values as decoded by `response.json()` / encoded by `jsonify`. -/
inductive Json : Type
  | null
  | bool (b : Bool)
  | int (n : Int)
  | str (s : String)
  | arr (xs : List Json)
  | obj (kvs : List (String × Json))
  deriving Repr

/-- An HTTP response as seen through `requests`: the status code and the
result of `.json()` (`none` when the body is not valid JSON and `.json()`
raises). -/
structure Response : Type where
  status_code : Nat
  body : Option Json
  deriving Repr

/-- Python truthiness of a `requests.Response`: `bool(r)` is `r.ok`,
which is true exactly when `status_code < 400`. -/
def Response.truthy (r : Response) : Bool :=
  r.status_code < 400

/-- Behaviour of the underlying `requests.get/post/put/delete` call. -/
inductive NetOutcome : Type
  | resp (r : Response)
  | reqException
  | otherException
  deriving Repr

/-- The Python exceptions that can propagate in this program. -/
inductive PyErr : Type
  | valueError
  | attributeError
  | jsonDecodeError
  | otherError
  deriving Repr, DecidableEq

/-- A flash message: `flash(message, category)`. -/
structure Flash : Type where
  message : String
  category : String
  deriving Repr, DecidableEq

/-- What a handler returns to Flask: a rendered template with its keyword
context, a redirect to a route, or a `jsonify` response. -/
inductive Page : Type
  | render (template : String) (context : List (String × Json))
  | redirect (route : String)
  | jsonResponse (body : List (String × Json))
  deriving Repr

/-- The submitted form as seen by `request.form.get`: each field is either
present (a string, possibly empty) or missing. -/
structure Form : Type where
  name : Option String
  email : Option String
  age : Option String
  deriving Repr, DecidableEq

/-- `make_api_request` (src/app.py:29-47). The four supported methods
dispatch to `requests.<method>`; `requests.exceptions.RequestException` is
caught, logged and turned into `None`; any other exception from the call
propagates, as does the `ValueError` raised for an unsupported method. -/
def make_api_request (method : String) (out : NetOutcome) :
    Except PyErr (Option Response) :=
  if method = "GET" ∨ method = "POST" ∨ method = "PUT" ∨ method = "DELETE" then
    match out with
    | NetOutcome.resp r => Except.ok (some r)
    | NetOutcome.reqException => Except.ok none
    | NetOutcome.otherException => Except.error PyErr.otherError
  else
    Except.error PyErr.valueError

mutual
/-- Python `repr()` of a decoded JSON value, used by `str()` for
containers. String escaping inside containers is simplified to plain
single quotes (no route of this program puts a container in an `error`
field, so only the scalar cases are ever exercised). -/
def pyRepr : Json → String
  | Json.null => "None"
  | Json.bool true => "True"
  | Json.bool false => "False"
  | Json.int n => toString n
  | Json.str s => "'" ++ s ++ "'"
  | Json.arr xs => "[" ++ pyReprItems xs ++ "]"
  | Json.obj kvs => "\x7b" ++ pyReprPairs kvs ++ "\x7d"

def pyReprItems : List Json → String
  | [] => ""
  | [x] => pyRepr x
  | x :: xs => pyRepr x ++ ", " ++ pyReprItems xs

def pyReprPairs : List (String × Json) → String
  | [] => ""
  | [(k, v)] => "'" ++ k ++ "': " ++ pyRepr v
  | (k, v) :: kvs => "'" ++ k ++ "': " ++ pyRepr v ++ ", " ++ pyReprPairs kvs
end

/-- Python `str()` of a decoded JSON value, as interpolated by the
f-strings in the flash messages: top-level strings are shown bare,
everything else as its `repr`. -/
def pyStr : Json → String
  | Json.str s => s
  | j => pyRepr j

/-- Decimal-digit runs accepted by Python `int()`: at least one ASCII
digit, with single underscores allowed between digits. -/
def pyDigits : List Char → Bool
  | [] => false
  | [c] => c.isDigit
  | c :: '_' :: cs => c.isDigit && pyDigits cs
  | c :: cs => c.isDigit && pyDigits cs

/-- Numeric value of a digit run, skipping the underscores. -/
def digitsVal (cs : List Char) : Nat :=
  cs.foldl (fun acc c => if c.isDigit then 10 * acc + (c.toNat - 48) else acc) 0

/-- Surrounding whitespace stripped from a character list, as `int()`
does before parsing. -/
def trimChars (cs : List Char) : List Char :=
  ((cs.dropWhile Char.isWhitespace).reverse.dropWhile Char.isWhitespace).reverse

/-- Models Python built-in `int()` on a string: optional surrounding
whitespace, optional sign, then an ASCII decimal literal; `none` models
the `ValueError` raised on any other input. -/
def pyInt (s : String) : Option Int :=
  match trimChars s.toList with
  | '+' :: cs => if pyDigits cs then some ((digitsVal cs : Int)) else none
  | '-' :: cs => if pyDigits cs then some (-(digitsVal cs : Int)) else none
  | cs => if pyDigits cs then some ((digitsVal cs : Int)) else none

/-- JSON encoding of an optional string form field (`None` becomes JSON
null). -/
def optStr : Option String → Json
  | none => Json.null
  | some s => Json.str s

/-- The `user_data` dict built by `add_user` (src/app.py:71-75) and
`edit_user` (src/app.py:97-101). `age` is
`int(request.form.get('age')) if request.form.get('age') else None`:
a missing or empty field (both falsy in Python) gives `None`; a non-empty
non-numeric field makes `int()` raise `ValueError`, which neither handler
catches. -/
def build_user_data (form : Form) : Except PyErr Json :=
  let mk (age : Json) : Json :=
    Json.obj [("name", optStr form.name), ("email", optStr form.email), ("age", age)]
  match form.age with
  | none => Except.ok (mk Json.null)
  | some s =>
    if s = "" then Except.ok (mk Json.null)
    else
      match pyInt s with
      | some n => Except.ok (mk (Json.int n))
      | none => Except.error PyErr.valueError

/-- The error-message extraction shared by `add_user` (src/app.py:82-88)
and `edit_user` (src/app.py:108-114): starts from the generic default;
only when `if response:` is truthy — i.e. `response` is not `None` AND
`response.ok`, so `status_code < 400` — does it try `response.json()` and
`error_data.get('error', error_msg)`, and any exception from that block is
swallowed by the bare `except: pass` (unparsable body, body not a dict). -/
def extract_error_msg (default : String) (resp : Option Response) : String :=
  match resp with
  | none => default
  | some r =>
    if r.truthy then
      match r.body with
      | some (Json.obj kvs) =>
        match kvs.lookup "error" with
        | some v => pyStr v
        | none => default
      | _ => default
    else default

/-- Python `response and response.status_code == n` for the
`Option Response` returned by the adapter: `None` is falsy, and a
`requests.Response` is truthy iff `response.ok` (`status_code < 400`). -/
def respIs (resp : Option Response) (n : Nat) : Bool :=
  match resp with
  | none => false
  | some r => r.truthy && (r.status_code == n)

/-- `index` (src/app.py:49-65): GET `/`. The request and the branch sit in
`try/except Exception`; the except branch substitutes an empty user list
and flashes a connection error. On a 200 response it renders
`users_data.get('data', [])`; `.json()` raising or the body not being a
dict (`.get` raising `AttributeError`) land in the except branch. Returns
the queued flashes and the page. -/
def index (api_url : String) (out : NetOutcome) : List Flash × Page :=
  let emptyPage : Page :=
    Page.render "index.html" [("users", Json.arr []), ("api_url", Json.str api_url)]
  let connError : List Flash × Page :=
    ([⟨"Error connecting to backend API", "error"⟩], emptyPage)
  match make_api_request "GET" out with
  | Except.error _ => connError
  | Except.ok resp =>
    match resp with
    | some r =>
      if r.truthy && (r.status_code == 200) then
        match r.body with
        | none => connError
        | some (Json.obj kvs) =>
          ([], Page.render "index.html"
            [("users", (kvs.lookup "data").getD (Json.arr [])),
             ("api_url", Json.str api_url)])
        | some _ => connError
      else
        ([⟨"Failed to load users from API", "error"⟩], emptyPage)
    | none => ([⟨"Failed to load users from API", "error"⟩], emptyPage)

/-- `add_user` (src/app.py:67-91), POST branch. Returns the JSON payload
passed to the adapter together with the queued flashes and the resulting
page; a `ValueError` from `int()` on the age field, or an exception
escaping the adapter, propagates (Flask then serves a 500). The final
`render_template('add_user.html')` passes no context, so any failed
submission re-renders the bare creation form. -/
def add_user (form : Form) (out : NetOutcome) :
    Except PyErr (Json × List Flash × Page) :=
  match build_user_data form with
  | Except.error e => Except.error e
  | Except.ok user_data =>
    match make_api_request "POST" out with
    | Except.error e => Except.error e
    | Except.ok resp =>
      if respIs resp 201 then
        Except.ok (user_data,
          [⟨"User created successfully! 🎉", "success"⟩],
          Page.redirect "index")
      else
        Except.ok (user_data,
          [⟨"Error: " ++ extract_error_msg "Failed to create user" resp, "error"⟩],
          Page.render "add_user.html" [])

/-- `edit_user` (src/app.py:93-126), POST branch. After a failed PUT the
handler falls through to the refetch (`GET /users/{user_id}`): a 200
refetch renders the edit form with `user_data.get('data')`, anything else
flashes `User not found` as a second message and redirects to the list;
`.json()` raising or a non-dict body on the refetch is uncaught here. -/
def edit_user (form : Form) (putOut getOut : NetOutcome) :
    Except PyErr (Json × List Flash × Page) :=
  match build_user_data form with
  | Except.error e => Except.error e
  | Except.ok user_data =>
    match make_api_request "PUT" putOut with
    | Except.error e => Except.error e
    | Except.ok putResp =>
      if respIs putResp 200 then
        Except.ok (user_data,
          [⟨"User updated successfully! ✅", "success"⟩],
          Page.redirect "index")
      else
        let f1 : Flash :=
          ⟨"Error: " ++ extract_error_msg "Failed to update user" putResp, "error"⟩
        match make_api_request "GET" getOut with
        | Except.error e => Except.error e
        | Except.ok getResp =>
          match getResp with
          | some r =>
            if r.truthy && (r.status_code == 200) then
              match r.body with
              | none => Except.error PyErr.jsonDecodeError
              | some (Json.obj kvs) =>
                Except.ok (user_data, [f1],
                  Page.render "edit_user.html"
                    [("user", (kvs.lookup "data").getD Json.null)])
              | some _ => Except.error PyErr.attributeError
            else
              Except.ok (user_data, [f1, ⟨"User not found", "error"⟩],
                Page.redirect "index")
          | none =>
            Except.ok (user_data, [f1, ⟨"User not found", "error"⟩],
              Page.redirect "index")

/-- `delete_user` (src/app.py:128-137): POST `/delete_user/{id}`. Flashes
success on a truthy 200 response, a generic failure otherwise, and in both
cases redirects to the list route. -/
def delete_user (out : NetOutcome) : Except PyErr (List Flash × Page) :=
  match make_api_request "DELETE" out with
  | Except.error e => Except.error e
  | Except.ok resp =>
    if respIs resp 200 then
      Except.ok ([⟨"User deleted successfully! 🗑️", "success"⟩], Page.redirect "index")
    else
      Except.ok ([⟨"Failed to delete user", "error"⟩], Page.redirect "index")

/-- `health_check` (src/app.py:139-155): GET `/api/health`. The adapter
call sits in a try with a bare `except:`; since the adapter itself already
catches `RequestException` and returns `None`, the except branch
(`unreachable`) only fires when `make_api_request` raises — an unsupported
method or an exception that is not a `RequestException`. -/
def health_check (api_url : String) (out : NetOutcome) : Page :=
  let backend_status : String :=
    match make_api_request "GET" out with
    | Except.error _ => "unreachable"
    | Except.ok resp => if respIs resp 200 then "healthy" else "unhealthy"
  Page.jsonResponse
    [("frontend", Json.str "healthy"),
     ("backend", Json.str backend_status),
     ("api_url", Json.str api_url)]

/-- The `Option Response` value a supported-method adapter call hands back
to its caller (`some` the arrived response, `None` after a caught
`RequestException`). -/
def netResp : NetOutcome → Option Response
  | NetOutcome.resp r => some r
  | _ => none

/-- C6: for every call to the HTTP client adapter with a supported method
(GET, POST, PUT, DELETE), a network-level failure — a raised
`requests.exceptions.RequestException`, covering connection refused,
timeout, DNS failure, malformed response — makes the adapter return `None`
to the caller; no exception propagates. -/
theorem c6_adapter_network_failure_returns_none
    (m : String)
    (h : m = "GET" ∨ m = "POST" ∨ m = "PUT" ∨ m = "DELETE") :
    make_api_request m NetOutcome.reqException = Except.ok none := by
  unfold make_api_request
  rw [if_pos h]

/-- Witness for C6 at the concrete method GET. -/
theorem c6_witness :
    make_api_request "GET" NetOutcome.reqException = Except.ok none :=
  c6_adapter_network_failure_returns_none "GET" (Or.inl rfl)

/-- C3: whenever the backend call for GET `/` yields an absent response or
any status other than 200, the list page is rendered with zero records and
exactly one error notification is queued. -/
theorem c3_list_failure_renders_empty_and_flashes_once
    (api : String) (out : NetOutcome)
    (h : out = NetOutcome.reqException ∨
         ∃ r, out = NetOutcome.resp r ∧ r.status_code ≠ 200) :
    index api out =
      ([⟨"Failed to load users from API", "error"⟩],
       Page.render "index.html" [("users", Json.arr []), ("api_url", Json.str api)]) := by
  rcases h with h | ⟨r, rfl, hr⟩
  · subst h; rfl
  · have h200 : (r.status_code == 200) = false := by simpa using hr
    simp [index, make_api_request, h200]

/-- Witness for C3 at a concrete 500 response. -/
theorem c3_witness :
    index "http://backend:5000" (NetOutcome.resp ⟨500, none⟩) =
      ([⟨"Failed to load users from API", "error"⟩],
       Page.render "index.html"
         [("users", Json.arr []), ("api_url", Json.str "http://backend:5000")]) :=
  c3_list_failure_renders_empty_and_flashes_once "http://backend:5000"
    (NetOutcome.resp ⟨500, none⟩) (Or.inr ⟨⟨500, none⟩, rfl, by simp⟩)

/-- C8: for every 200 response to GET `/users` whose JSON body is an
object carrying a `data` array, the list page renders exactly those
records, in the order received, and no notification is queued. -/
theorem c8_list_success_renders_data_in_order
    (api : String) (kvs : List (String × Json)) (records : List Json)
    (h : kvs.lookup "data" = some (Json.arr records)) :
    index api (NetOutcome.resp ⟨200, some (Json.obj kvs)⟩) =
      ([], Page.render "index.html"
        [("users", Json.arr records), ("api_url", Json.str api)]) := by
  simp [index, make_api_request, Response.truthy, h]

/-- Witness for C8 at a concrete one-record body. -/
theorem c8_witness :
    index "u" (NetOutcome.resp
        ⟨200, some (Json.obj [("data", Json.arr [Json.int 1])])⟩) =
      ([], Page.render "index.html"
        [("users", Json.arr [Json.int 1]), ("api_url", Json.str "u")]) :=
  c8_list_success_renders_data_in_order "u" [("data", Json.arr [Json.int 1])]
    [Json.int 1] rfl

/-- C9 counterexample: a 200 response to GET `/users` whose body is valid
JSON but not an object (here the empty array) trivially lacks a `data`
key, yet the claim's "queues no notification at all" fails: `.get` on the
decoded list raises `AttributeError`, the handler's `except` branch runs,
and one error notification is queued. -/
theorem c9_counterexample :
    (index "u" (NetOutcome.resp ⟨200, some (Json.arr [])⟩)).1 ≠ [] := by
  simp [index, make_api_request, Response.truthy]

/-- C9 amended: a 200 response whose body is a JSON *object* lacking a
`data` key renders zero records and queues no notification (the missing
key silently defaults to an empty list); a 200 body that is valid JSON but
not an object instead queues exactly one error notification. -/
theorem c9_amended_missing_data_key
    (api : String) (kvs : List (String × Json)) (j : Json) :
    (kvs.lookup "data" = none →
      index api (NetOutcome.resp ⟨200, some (Json.obj kvs)⟩) =
        ([], Page.render "index.html"
          [("users", Json.arr []), ("api_url", Json.str api)])) ∧
    ((∀ l, j ≠ Json.obj l) →
      index api (NetOutcome.resp ⟨200, some j⟩) =
        ([⟨"Error connecting to backend API", "error"⟩],
         Page.render "index.html"
          [("users", Json.arr []), ("api_url", Json.str api)])) := by
  constructor
  · intro h
    simp [index, make_api_request, Response.truthy, h]
  · intro h
    cases j with
    | obj l => exact absurd rfl (h l)
    | null => simp [index, make_api_request, Response.truthy]
    | bool b => simp [index, make_api_request, Response.truthy]
    | int n => simp [index, make_api_request, Response.truthy]
    | str s => simp [index, make_api_request, Response.truthy]
    | arr xs => simp [index, make_api_request, Response.truthy]

/-- Witness for C9 amended, at an object body without `data` and at a
scalar body. -/
theorem c9_witness :
    index "u" (NetOutcome.resp ⟨200, some (Json.obj [("x", Json.int 1)])⟩) =
      ([], Page.render "index.html"
        [("users", Json.arr []), ("api_url", Json.str "u")]) ∧
    index "u" (NetOutcome.resp ⟨200, some (Json.int 7)⟩) =
      ([⟨"Error connecting to backend API", "error"⟩],
       Page.render "index.html"
        [("users", Json.arr []), ("api_url", Json.str "u")]) :=
  ⟨(c9_amended_missing_data_key "u" [("x", Json.int 1)] (Json.int 7)).1 rfl,
   (c9_amended_missing_data_key "u" [("x", Json.int 1)] (Json.int 7)).2
     (fun _ h => Json.noConfusion h)⟩

/-- C1 counterexample: when the underlying call raises a
`RequestException` (connection refused, timeout, DNS failure), the adapter
itself catches it and returns `None`, so the health handler reports the
backend `unhealthy` — not `unreachable` as the claim states. -/
theorem c1_counterexample :
    health_check "http://backend:5000" NetOutcome.reqException ≠
      Page.jsonResponse
        [("frontend", Json.str "healthy"),
         ("backend", Json.str "unreachable"),
         ("api_url", Json.str "http://backend:5000")] := by
  simp [health_check, make_api_request, respIs]

/-- C1 amended: the health endpoint reports the backend `healthy` exactly
on a 200 response, `unhealthy` when a non-200 response arrives or the
network call failed with a `RequestException` (which the adapter turns
into `None`), and `unreachable` exactly when `make_api_request` itself
raises — an exception that is not a `RequestException`; the frontend field
and the configured url are always reported as-is. -/
theorem c1_amended_health_status_mapping (api : String) (out : NetOutcome) :
    health_check api out =
      Page.jsonResponse
        [("frontend", Json.str "healthy"),
         ("backend", Json.str
            (match out with
             | NetOutcome.resp r =>
                 if r.status_code = 200 then "healthy" else "unhealthy"
             | NetOutcome.reqException => "unhealthy"
             | NetOutcome.otherException => "unreachable")),
         ("api_url", Json.str api)] := by
  cases out with
  | resp r =>
    by_cases h : r.status_code = 200
    · simp [health_check, make_api_request, respIs, Response.truthy, h]
    · have h200 : (r.status_code == 200) = false := by simpa using h
      simp [health_check, make_api_request, respIs, h200, h]
  | reqException => rfl
  | otherException => rfl

/-- C7: a POST to `/delete_user/{id}` always redirects to the list route
for every outcome the claim enumerates (a response of any status, or an
absent response after a network failure), queuing a single notification
whose category is `success` exactly on a 200 response and `error`
otherwise. -/
theorem c7_delete_always_redirects
    (out : NetOutcome) (h : out ≠ NetOutcome.otherException) :
    delete_user out =
      Except.ok
        ([match out with
          | NetOutcome.resp r =>
              if r.status_code = 200 then
                ⟨"User deleted successfully! 🗑️", "success"⟩
              else ⟨"Failed to delete user", "error"⟩
          | _ => ⟨"Failed to delete user", "error"⟩],
         Page.redirect "index") := by
  cases out with
  | otherException => exact absurd rfl h
  | reqException => rfl
  | resp r =>
    by_cases hr : r.status_code = 200
    · simp [delete_user, make_api_request, respIs, Response.truthy, hr]
    · have h200 : (r.status_code == 200) = false := by simpa using hr
      simp [delete_user, make_api_request, respIs, h200, hr]

/-- Witness for C7 at an absent response. -/
theorem c7_witness :
    delete_user NetOutcome.reqException =
      Except.ok ([⟨"Failed to delete user", "error"⟩], Page.redirect "index") :=
  c7_delete_always_redirects NetOutcome.reqException (by simp)

/-- C5: in both the create and the edit submission, an empty or missing
`age` field yields a JSON-null age in the payload (no error from the
parse), while a non-empty non-numeric `age` makes `int()` raise a
`ValueError` that neither handler catches, so the whole request fails. -/
theorem c5_age_field_parsing
    (form : Form) (out putOut getOut : NetOutcome) :
    ((form.age = none ∨ form.age = some "") →
      build_user_data form =
        Except.ok (Json.obj
          [("name", optStr form.name), ("email", optStr form.email),
           ("age", Json.null)])) ∧
    ((form.age = none ∨ form.age = some "") → ∀ r : Response,
      (add_user form (NetOutcome.resp r)).map Prod.fst =
        Except.ok (Json.obj
          [("name", optStr form.name), ("email", optStr form.email),
           ("age", Json.null)])) ∧
    (∀ s, form.age = some s → s ≠ "" → pyInt s = none →
      add_user form out = Except.error PyErr.valueError ∧
      edit_user form putOut getOut = Except.error PyErr.valueError) := by
  have hnull : (form.age = none ∨ form.age = some "") →
      build_user_data form =
        Except.ok (Json.obj
          [("name", optStr form.name), ("email", optStr form.email),
           ("age", Json.null)]) := by
    rintro (h | h) <;> simp [build_user_data, h]
  refine ⟨hnull, ?_, ?_⟩
  · intro h r
    have hb := hnull h
    cases hc : respIs (some r) 201 <;>
      simp [add_user, hb, make_api_request, hc, Except.map]
  · intro s hs hne hint
    have hbad : build_user_data form = Except.error PyErr.valueError := by
      simp [build_user_data, hs, hne, hint]
    exact ⟨by simp [add_user, hbad], by simp [edit_user, hbad]⟩

/-- Witness for C5: an empty age submits a null age; a non-numeric age
aborts the create request with a `ValueError`. -/
theorem c5_witness :
    build_user_data ⟨some "Alice", some "alice@example.com", some ""⟩ =
      Except.ok (Json.obj
        [("name", Json.str "Alice"), ("email", Json.str "alice@example.com"),
         ("age", Json.null)]) ∧
    add_user ⟨some "Bob", some "bob@example.com", some "abc"⟩
        NetOutcome.reqException = Except.error PyErr.valueError :=
  ⟨(c5_age_field_parsing ⟨some "Alice", some "alice@example.com", some ""⟩
      NetOutcome.reqException NetOutcome.reqException NetOutcome.reqException).1
      (Or.inr rfl),
   ((c5_age_field_parsing ⟨some "Bob", some "bob@example.com", some "abc"⟩
      NetOutcome.reqException NetOutcome.reqException NetOutcome.reqException).2.2
      "abc" rfl (by simp) (by rfl)).1⟩

/-- C10: every failed create submission (absent response or status other
than 201) re-renders the creation template with an empty context, so the
submitted name, email and age values are not passed back into the form. -/
theorem c10_create_failure_rerenders_bare_form
    (form : Form) (out : NetOutcome) (p : Json)
    (hbuild : build_user_data form = Except.ok p)
    (hfail : out = NetOutcome.reqException ∨
             ∃ r, out = NetOutcome.resp r ∧ r.status_code ≠ 201) :
    add_user form out =
      Except.ok (p,
        [⟨"Error: " ++ extract_error_msg "Failed to create user" (netResp out),
          "error"⟩],
        Page.render "add_user.html" []) := by
  rcases hfail with h | ⟨r, rfl, hr⟩
  · subst h; simp [add_user, hbuild, make_api_request, respIs, netResp]
  · have h201 : (r.status_code == 201) = false := by simpa using hr
    simp [add_user, hbuild, make_api_request, respIs, h201, netResp]

/-- Witness for C10 at an absent response. -/
theorem c10_witness :
    add_user ⟨some "Alice", some "alice@example.com", none⟩
        NetOutcome.reqException =
      Except.ok (Json.obj
        [("name", Json.str "Alice"), ("email", Json.str "alice@example.com"),
         ("age", Json.null)],
        [⟨"Error: Failed to create user", "error"⟩],
        Page.render "add_user.html" []) :=
  c10_create_failure_rerenders_bare_form
    ⟨some "Alice", some "alice@example.com", none⟩ NetOutcome.reqException _
    rfl (Or.inl rfl)

/-- C4: the backend answers the create submission with status 400 and
body `{"error": "email already exists"}`, but because `bool(response)` is
`response.ok` — false for every status ≥ 400 — the guard `if response:`
skips the error-body extraction and the handler flashes the generic
`Error: Failed to create user`, which does not contain the text
`email already exists`; the form is still re-rendered. -/
theorem c4_create_400_flashes_generic_message :
    add_user ⟨some "Alice", some "alice@example.com", some "30"⟩
        (NetOutcome.resp ⟨400,
          some (Json.obj [("error", Json.str "email already exists")])⟩) =
      Except.ok (Json.obj
        [("name", Json.str "Alice"), ("email", Json.str "alice@example.com"),
         ("age", Json.int 30)],
        [⟨"Error: Failed to create user", "error"⟩],
        Page.render "add_user.html" []) := by
  rfl

/-- C2 counterexample: the PUT returns status 400 with body
`{"error": "boom"}` and the subsequent refetch of the user fails. The
claim at this input demands the message `boom`, exactly one error
notification, and a re-rendered edit form; the handler instead flashes the
generic `Error: Failed to update user` (`if response:` is falsy at status
400), queues a second `User not found` notification, and redirects to the
list route. -/
theorem c2_counterexample :
    edit_user ⟨some "Alice", some "alice@example.com", some "30"⟩
        (NetOutcome.resp ⟨400, some (Json.obj [("error", Json.str "boom")])⟩)
        NetOutcome.reqException =
      Except.ok (Json.obj
        [("name", Json.str "Alice"), ("email", Json.str "alice@example.com"),
         ("age", Json.int 30)],
        [⟨"Error: Failed to update user", "error"⟩,
         ⟨"User not found", "error"⟩],
        Page.redirect "index") := by
  rfl

/-- C2 amended: on a failed PUT (absent response or non-200 status) the
handler queues one error notification whose message uses the body's
`error` field only when the response arrived with status < 400 — for
every response of status ≥ 400 (and for an absent response) the generic
fallback is flashed; it then refetches the user: a 200 refetch with an
object body re-renders the edit form carrying just that one notification,
while a failed refetch queues a second `User not found` error notification
and redirects to the list route instead. -/
theorem c2_amended_edit_failure_behavior
    (form : Form) (putOut getOut : NetOutcome) (p : Json)
    (hbuild : build_user_data form = Except.ok p)
    (hput : putOut = NetOutcome.reqException ∨
            ∃ r, putOut = NetOutcome.resp r ∧ r.status_code ≠ 200) :
    (∀ r, putOut = NetOutcome.resp r → 400 ≤ r.status_code →
      extract_error_msg "Failed to update user" (netResp putOut) =
        "Failed to update user") ∧
    ((getOut = NetOutcome.reqException ∨
        ∃ r, getOut = NetOutcome.resp r ∧ r.status_code ≠ 200) →
      edit_user form putOut getOut =
        Except.ok (p,
          [⟨"Error: " ++
              extract_error_msg "Failed to update user" (netResp putOut),
            "error"⟩,
           ⟨"User not found", "error"⟩],
          Page.redirect "index")) ∧
    (∀ kvs, getOut = NetOutcome.resp ⟨200, some (Json.obj kvs)⟩ →
      edit_user form putOut getOut =
        Except.ok (p,
          [⟨"Error: " ++
              extract_error_msg "Failed to update user" (netResp putOut),
            "error"⟩],
          Page.render "edit_user.html"
            [("user", (kvs.lookup "data").getD Json.null)])) := by
  rcases hput with h | ⟨pr, rfl, hpr⟩
  · subst h
    refine ⟨by rintro r ⟨⟩, ?_, ?_⟩
    · intro hget
      rcases hget with h | ⟨r, rfl, hr⟩
      · subst h
        simp [edit_user, hbuild, make_api_request, respIs, netResp,
          extract_error_msg]
      · have h200 : (r.status_code == 200) = false := by simpa using hr
        simp [edit_user, hbuild, make_api_request, respIs, netResp, h200]
    · intro kvs hg
      subst hg
      simp [edit_user, hbuild, make_api_request, respIs, netResp,
        Response.truthy]
  · have h200p : (pr.status_code == 200) = false := by simpa using hpr
    refine ⟨?_, ?_, ?_⟩
    · rintro r heq hge
      cases heq
      have hlt : ¬ pr.status_code < 400 := Nat.not_lt.mpr hge
      simp [extract_error_msg, netResp, Response.truthy, hlt]
    · intro hget
      rcases hget with h | ⟨r, rfl, hr⟩
      · subst h
        simp [edit_user, hbuild, make_api_request, respIs, netResp, h200p]
      · have h200 : (r.status_code == 200) = false := by simpa using hr
        simp [edit_user, hbuild, make_api_request, respIs, netResp, h200p,
          h200]
    · intro kvs hg
      subst hg
      simp [edit_user, hbuild, make_api_request, respIs, netResp,
        Response.truthy, h200p]

/-- Witness for C2 amended: a 500 PUT outcome flashes the generic message
and, after a successful refetch, the edit form is re-rendered with that
single notification. -/
theorem c2_witness :
    edit_user ⟨some "Alice", some "alice@example.com", none⟩
        (NetOutcome.resp ⟨500, none⟩)
        (NetOutcome.resp
          ⟨200, some (Json.obj [("data", Json.obj [("id", Json.int 1)])])⟩) =
      Except.ok (Json.obj
        [("name", Json.str "Alice"), ("email", Json.str "alice@example.com"),
         ("age", Json.null)],
        [⟨"Error: Failed to update user", "error"⟩],
        Page.render "edit_user.html"
          [("user", Json.obj [("id", Json.int 1)])]) :=
  (c2_amended_edit_failure_behavior
      ⟨some "Alice", some "alice@example.com", none⟩
      (NetOutcome.resp ⟨500, none⟩)
      (NetOutcome.resp
        ⟨200, some (Json.obj [("data", Json.obj [("id", Json.int 1)])])⟩)
      _ rfl (Or.inr ⟨⟨500, none⟩, rfl, by simp⟩)).2.2
    [("data", Json.obj [("id", Json.int 1)])] rfl

end PyFrontend
